import Mathlib

/-!
Verification of the AutoChem parallel batch-execution engine
(`calculation/xtb_calculator.py`, plus the config validation in
`core/config_manager.py` and the optional XYZ export pass in `main.py`)
against its natural-language specification.

The Python code is shallowly embedded: pure string manipulation becomes
Lean functions on `String`/`List Char`; filesystem effects become explicit
state passing over a finite-map filesystem model; the behaviour of the
external `xtb` binary (exit codes, whether it produced `xtbopt.xyz`) is an
explicit oracle `ExecEnv`; Python exceptions become `Except`/sum results.
-/

namespace AutoChem

/-! ## Command-template resolution (xtb_calculator.py lines 75-80)

The worker does `if '{}' in command_template: command =
command_template.format(xyz_filename) else: command = command_template`.
`hasPlaceholder` embeds Python's substring test `'{}' in s`;
`pyFormatAux` embeds `str.format` restricted to auto-numbered `{}` fields
(the only field syntax occurring in command templates): each `{}` consumes
the next positional argument, and a `{}` with no argument left raises
`IndexError`, modelled as `.error ()`. -/

def hasPlaceholder : List Char → Bool
  | [] => false
  | [_] => false
  | a :: b :: rest => (a = '{' && b = '}') || hasPlaceholder (b :: rest)

def pyFormatAux : List Char → List (List Char) → Except Unit (List Char)
  | [], _ => .ok []
  | [c], _ => .ok [c]
  | a :: b :: rest, args =>
    if a = '{' ∧ b = '}' then
      match args with
      | [] => .error ()
      | f :: more => (fun t => f ++ t) <$> pyFormatAux rest more
    else
      (fun t => a :: t) <$> pyFormatAux (b :: rest) args

/-- Lines 77-80 of `xtb_calculator.py`: resolve one command template for a
unit, substituting the staged input filename for the placeholder when the
template contains one, and otherwise using the template verbatim. -/
def resolveCommand (template fname : String) : Except Unit String :=
  if hasPlaceholder template.data then
    String.mk <$> pyFormatAux template.data [fname.data]
  else
    .ok template

/-! ## Per-unit command sequencer (`_execute_xtb_commands`, lines 59-112)

`ExecEnv` is the oracle for the external world of one unit: the exit code
of the child process launched at step index `i` (0-based), and whether
`xtbopt.xyz` exists in the unit directory when the post-step-1 check runs. -/

structure ExecEnv where
  exitCode : Nat → Int
  xtboptExists : Bool

structure WorkItem where
  moleculeDir : String
  xyzFilename : String
deriving DecidableEq, Repr

/-- One executed step: the log file the step's merged stdout/stderr was
redirected to (line 83: `molecule_dir / f"xtb_step_{i+1}.log"`), and the
resolved command that was run. -/
structure StepRecord where
  logPath : String
  command : String
deriving DecidableEq, Repr

inductive StepError where
  /-- `subprocess.CalledProcessError` raised by `check=True` (line 93). -/
  | calledProcess (command : String) (code : Int)
  /-- the generic `Exception` raised at line 100 when `xtbopt.xyz` is
  missing after the first step of a multi-step chain. -/
  | missingOutput (path : String) (step : Nat)
  /-- `IndexError` escaping `str.format` at line 78. -/
  | formatError
deriving DecidableEq, Repr

/-- The `for i, command_template in enumerate(self.commands)` loop of
`_execute_xtb_commands` (lines 75-100), with `i` the absolute step index
and `nTotal = len(self.commands)`. Returns the records of the steps that
were actually launched (in order) and the first error, if any; an error
stops the loop, like the exception it embeds. -/
def runSteps (env : ExecEnv) (dir fname : String) (nTotal : Nat) :
    List String → Nat → List StepRecord × Option StepError
  | [], _ => ([], none)
  | t :: rest, i =>
    match resolveCommand t fname with
    | .error _ => ([], some .formatError)
    | .ok cmd =>
      let r : StepRecord := ⟨dir ++ "/xtb_step_" ++ toString (i + 1) ++ ".log", cmd⟩
      if env.exitCode i = 0 then
        if i = 0 ∧ 1 < nTotal ∧ env.xtboptExists = false then
          ([r], some (.missingOutput (dir ++ "/xtbopt.xyz") (i + 1)))
        else
          let rec' := runSteps env dir fname nTotal rest (i + 1)
          (r :: rec'.1, rec'.2)
      else
        ([r], some (.calledProcess cmd (env.exitCode i)))

/-- `_execute_xtb_commands` (lines 59-112): the whole worker body sits in a
`try` whose handlers catch `CalledProcessError` and every other `Exception`,
so the worker always returns a tagged string and never propagates an
exception to the pool. -/
def execute_xtb_commands (commands : List String) (env : ExecEnv) (item : WorkItem) : String :=
  match (runSteps env item.moleculeDir item.xyzFilename commands.length commands 0).2 with
  | none => "SUCCESS: " ++ item.moleculeDir ++ "/" ++ item.xyzFilename
  | some (.calledProcess cmd code) =>
      "ERROR: " ++ "XTB command failed for " ++ item.xyzFilename ++ ": Command " ++ cmd ++
        " returned non-zero exit status " ++ toString code
  | some (.missingOutput p step) =>
      "ERROR: " ++ "Processing error for " ++ item.xyzFilename ++ ": Expected output file " ++
        p ++ " not found after step " ++ toString step
  | some .formatError =>
      "ERROR: " ++ "Processing error for " ++ item.xyzFilename ++
        ": Replacement index 1 out of range"

/-! ## Filesystem model and work-unit staging
(`_prepare_molecule_directory`, lines 38-57)

The filesystem is a list of existing directories, an association list from
file paths to contents, and a set `badPaths` of paths on which any
create/write fails (modelling `PermissionError` / disk-full `OSError` from
`mkdir` and `shutil.copy2`). `mkdir(exist_ok=True)` succeeds silently when
the directory already exists. -/

structure FS where
  dirs : List String
  files : List (String × String)
  badPaths : List String
deriving DecidableEq, Repr

/-- `Path.mkdir(exist_ok=True)`: reuse a pre-existing directory. -/
def insertDir (dirs : List String) (d : String) : List String :=
  if d ∈ dirs then dirs else dirs ++ [d]

/-- `shutil.copy2` to an existing path overwrites it: replace the first
binding of `k`, or append one. -/
def setFile : List (String × String) → String → String → List (String × String)
  | [], k, v => [(k, v)]
  | (k', v') :: rest, k, v =>
    if k' = k then (k, v) :: rest else (k', v') :: setFile rest k v

def lookupFile : List (String × String) → String → Option String
  | [], _ => none
  | (k', v') :: rest, k => if k' = k then some v' else lookupFile rest k

def countKey (k : String) (l : List (String × String)) : Nat :=
  (l.filter (fun p => p.1 = k)).length

/-- A source structure file: directory, filename stem, extension, content.
`Path.stem`/`Path.name` of the source become `stem` and `name`. -/
structure XyzFile where
  srcDir : String
  stem : String
  ext : String
  content : String
deriving DecidableEq, Repr

def XyzFile.name (x : XyzFile) : String := x.stem ++ x.ext

/-- `_prepare_molecule_directory` (lines 38-57): create
`work_dir/<stem>/` (`exist_ok=True`), copy the source file into it, and
return the molecule directory path. Creation of a missing directory or the
copy fails when the target path is in `badPaths`; the exception propagates
(there is no handler in this function or in the staging loop that calls
it). -/
def prepare_molecule_directory (fs : FS) (xyz : XyzFile) (workDir : String) :
    Except String (FS × String) :=
  let moleculeDir := workDir ++ "/" ++ xyz.stem
  if moleculeDir ∉ fs.dirs ∧ moleculeDir ∈ fs.badPaths then
    .error ("StagingError: cannot create directory " ++ moleculeDir)
  else
    let destXyz := moleculeDir ++ "/" ++ xyz.name
    if destXyz ∈ fs.badPaths then
      .error ("StagingError: cannot copy to " ++ destXyz)
    else
      .ok ({ fs with dirs := insertDir fs.dirs moleculeDir,
                     files := setFile fs.files destXyz xyz.content },
           moleculeDir)

/-! ## Batch driver (`calculate_batch`, lines 114-162) -/

/-- The staging loop of `calculate_batch` (lines 132-136): prepare each
molecule directory in input order and collect `(molecule_dir,
xyz_file.name)` work items. The loop body is not wrapped in any
`try`/`except`, so the first staging exception aborts the whole loop. -/
def stageAll (outputDir : String) : FS → List XyzFile → Except String (FS × List WorkItem)
  | fs, [] => .ok (fs, [])
  | fs, x :: rest =>
    match prepare_molecule_directory fs x outputDir with
    | .error e => .error e
    | .ok (fs1, dir) =>
      match stageAll outputDir fs1 rest with
      | .error e => .error e
      | .ok (fs2, items) => .ok (fs2, ⟨dir, x.name⟩ :: items)

/-- `pool.imap(self._execute_xtb_commands, work_items)` collected with
`list(...)`: one outcome string per work item, in submission order
(`imap` yields results in input order regardless of completion order).
`envOf i` is the external-world oracle for the unit at submission
position `i`. -/
def runAllUnits (commands : List String) (envOf : Nat → ExecEnv) :
    List WorkItem → Nat → List String
  | [], _ => []
  | it :: rest, i =>
      execute_xtb_commands commands (envOf i) it :: runAllUnits commands envOf rest (i + 1)

/-- The dictionary returned by `calculate_batch` (lines 157-162). -/
structure BatchResult where
  total : Nat
  success : Nat
  errors : Nat
  results : List String
deriving DecidableEq, Repr

/-- `calculate_batch` returns the empty dict `{}` for an empty input list
(line 127) and the full result dictionary otherwise. -/
inductive BatchReturn where
  | emptyDict
  | result (r : BatchResult)
deriving DecidableEq, Repr

/-- Python's `s.startswith(pre)`, on the character-list view of strings. -/
def startswith (s pre : String) : Bool :=
  pre.data.isPrefixOf s.data

/-- `calculate_batch` (lines 114-162): early-return `{}` on an empty input
list; stage every unit (an exception here propagates to the caller); map
the worker over the items in order; count successes by the
`r.startswith("SUCCESS")` test (line 147) and set
`errors = len(results) - success_count` (line 148). -/
def calculate_batch (commands : List String) (envOf : Nat → ExecEnv) (fs : FS)
    (xyzFiles : List XyzFile) (outputDir : String) : Except String (FS × BatchReturn) :=
  if xyzFiles.isEmpty then
    .ok (fs, .emptyDict)
  else
    match stageAll outputDir fs xyzFiles with
    | .error e => .error e
    | .ok (fs1, items) =>
      let results := runAllUnits commands envOf items 0
      let successCount := (results.filter (fun r => startswith r "SUCCESS")).length
      .ok (fs1, .result ⟨xyzFiles.length, successCount, results.length - successCount, results⟩)

/-! ## Configuration validation
(`ConfigManager.get_xtb_config`, config_manager.py lines 52-80, and
`XTBCalculator.__init__`, xtb_calculator.py lines 23-36) -/

inductive Yaml where
  | str (s : String)
  | list (xs : List Yaml)
  | other

def lookupY : List (String × Yaml) → String → Option Yaml
  | [], _ => none
  | (k', v) :: rest, k => if k' = k then some v else lookupY rest k

/-- The `for i, cmd in enumerate(commands)` validation loop (lines 73-75):
`ConfigurationError` at the first non-string entry, 1-based index in the
message. -/
def validateCommandStrings : List Yaml → Nat → Except String Unit
  | [], _ => .ok ()
  | .str _ :: rest, i => validateCommandStrings rest (i + 1)
  | _ :: _, i => .error ("XTB command " ++ toString i ++ " must be a string")

/-- The command-list part of `get_xtb_config` (lines 65-80): missing
`command` key, a non-list value, an empty list, or a non-string entry all
raise `ConfigurationError`. -/
def get_xtb_config_commands (xtbConfig : List (String × Yaml)) : Except String (List Yaml) :=
  match lookupY xtbConfig "command" with
  | none => .error "XTB commands not specified in configuration"
  | some (.list cmds) =>
    if cmds.isEmpty then .error "XTB commands must be a non-empty list"
    else
      match validateCommandStrings cmds 1 with
      | .ok _ => .ok cmds
      | .error e => .error e
  | some _ => .error "XTB commands must be a non-empty list"

/-- `XTBCalculator.__init__` (lines 23-36): `ValueError` when the
configured command list is empty. -/
def xtb_calculator_init (commands : List String) : Except String (List String) :=
  if commands.isEmpty then .error "No XTB commands specified in configuration"
  else .ok commands

/-! ## Optional XYZ export pass (`run_xtb_calculation`, main.py lines 140-156)

One unit directory under the XTB output root: `stagedName` is the name of
the staged input found by `glob('molecule_*.xyz')` (the staging invariant
guarantees it is present and is `<stem>.xyz`, so `f"{name.stem}.xyz"`
reconstitutes it); `files` maps each file in the directory to its lines. -/

structure UnitDir where
  stagedName : String
  files : List (String × List String)

def lookupLines : List (String × List String) → String → Option (List String)
  | [], _ => none
  | (k', v) :: rest, k => if k' = k then some v else lookupLines rest k

def hasXtbopt (u : UnitDir) : Bool :=
  (lookupLines u.files "xtbopt.xyz").isSome

/-- The loop body of the `--out_xyz` pass (lines 145-154): when
`xtbopt.xyz` exists in the unit directory, write to the export directory a
file named after the staged input whose content is the first two lines of
the staged input followed by the lines of `xtbopt.xyz` from the third
onward; otherwise write nothing for this unit. -/
def out_xyz_convert_unit (u : UnitDir) : Option (String × List String) :=
  match lookupLines u.files "xtbopt.xyz" with
  | none => none
  | some coordAll =>
    let titleLines := ((lookupLines u.files u.stagedName).getD []).take 2
    some (u.stagedName, titleLines ++ coordAll.drop 2)

/-- The whole export pass: iterate over the unit directories and collect
the files written into the export directory. It only reads unit
directories, never re-running anything. -/
def out_xyz_export (units : List UnitDir) : List (String × List String) :=
  units.filterMap out_xyz_convert_unit

/-! ## Lemmas about placeholder resolution -/

theorem pyFormatAux_no_placeholder :
    ∀ cs : List Char, hasPlaceholder cs = false →
      ∀ args, pyFormatAux cs args = .ok cs
  | [], _, _ => rfl
  | [_], _, _ => rfl
  | a :: b :: rest, h, args => by
    have h' : ¬(a = '{' ∧ b = '}') ∧ hasPlaceholder (b :: rest) = false := by
      simpa [hasPlaceholder, Decidable.not_and_iff_or_not] using h
    have hcond : ¬(a = '{' ∧ b = '}') := h'.1
    simp only [pyFormatAux, if_neg hcond,
      pyFormatAux_no_placeholder (b :: rest) h'.2 args, Except.map_ok]

theorem hasPlaceholder_append :
    ∀ (a b : List Char), hasPlaceholder (a ++ '{' :: '}' :: b) = true
  | [], _ => by simp [hasPlaceholder]
  | [x], b => by simp [hasPlaceholder]
  | x :: y :: t, b => by
    simp only [hasPlaceholder, List.cons_append, Bool.or_eq_true, decide_eq_true_eq,
      Bool.and_eq_true]
    exact Or.inr (by simpa using hasPlaceholder_append (y :: t) b)

theorem pyFormatAux_single_placeholder :
    ∀ a : List Char, hasPlaceholder a = false → ∀ b : List Char,
      hasPlaceholder b = false → ∀ f : List Char,
      pyFormatAux (a ++ '{' :: '}' :: b) [f] = .ok (a ++ f ++ b)
  | [], _, b, hb, f => by
    simp [pyFormatAux, pyFormatAux_no_placeholder b hb]
  | [x], _, b, hb, f => by
    simp [pyFormatAux, pyFormatAux_no_placeholder b hb]
  | x :: y :: t, h, b, hb, f => by
    have h' : ¬(x = '{' ∧ y = '}') ∧ hasPlaceholder (y :: t) = false := by
      simpa [hasPlaceholder, Decidable.not_and_iff_or_not] using h
    have ih := pyFormatAux_single_placeholder (y :: t) h'.2 b hb f
    simp only [List.cons_append] at ih ⊢
    simp only [pyFormatAux, if_neg h'.1, ih, Except.map_ok]

/-- C7: for every configured command template, a template containing the
placeholder resolves to the template with the placeholder replaced by the
unit's staged input filename, a template without the placeholder is used
verbatim, and the command a step actually executes is exactly the resolved
one. -/
theorem c7_placeholder_resolution (fname : String) :
    (∀ t : String, hasPlaceholder t.data = false →
       resolveCommand t fname = .ok t) ∧
    (∀ a b : List Char, hasPlaceholder a = false → hasPlaceholder b = false →
       resolveCommand (String.mk (a ++ '{' :: '}' :: b)) fname
         = .ok (String.mk (a ++ fname.data ++ b))) ∧
    (∀ (env : ExecEnv) (dir : String) (nTotal : Nat) (t : String)
       (rest : List String) (i : Nat) (c : String),
       resolveCommand t fname = .ok c →
       ((runSteps env dir fname nTotal (t :: rest) i).1.map StepRecord.command).head?
         = some c) := by
  refine ⟨fun t ht => ?_, fun a b ha hb => ?_, fun env dir nTotal t rest i c hres => ?_⟩
  · simp [resolveCommand, ht]
  · simp only [resolveCommand, hasPlaceholder_append a b, if_pos]
    rw [pyFormatAux_single_placeholder a ha b hb fname.data]
    rfl
  · simp only [runSteps, hres]
    by_cases h0 : env.exitCode i = 0
    · by_cases hm : i = 0 ∧ 1 < nTotal ∧ env.xtboptExists = false
      · obtain ⟨hi, h1, h2⟩ := hm
        subst hi
        simp [h0, h1, h2]
      · simp [h0, hm]
    · simp [h0]

/-- Witness for C7 at concrete inputs: a literal template is used verbatim,
and `"xtb {} --opt"` resolves to `"xtb m1.xyz --opt"`. -/
theorem c7_witness :
    resolveCommand "xtb xtbopt.xyz --vipea" "m1.xyz" = .ok "xtb xtbopt.xyz --vipea" ∧
    resolveCommand (String.mk ("xtb ".data ++ '{' :: '}' :: " --opt".data)) "m1.xyz"
      = .ok (String.mk ("xtb ".data ++ "m1.xyz".data ++ " --opt".data)) :=
  ⟨(c7_placeholder_resolution "m1.xyz").1 "xtb xtbopt.xyz --vipea" (by decide),
   (c7_placeholder_resolution "m1.xyz").2.1 "xtb ".data " --opt".data
     (by decide) (by decide)⟩

/-! ## Lemmas about the per-unit sequencer -/

/-- Every step record produced by the loop from absolute index `i` has log
path `dir/xtb_step_<i+j+1>.log` at relative position `j`. -/
theorem runSteps_logPath (env : ExecEnv) (dir fname : String) (nTotal : Nat) :
    ∀ (cmds : List String) (i j : Nat) (r : StepRecord),
      (runSteps env dir fname nTotal cmds i).1.get? j = some r →
      r.logPath = dir ++ "/xtb_step_" ++ toString (i + j + 1) ++ ".log"
  | [], i, j, r => by simp [runSteps]
  | t :: rest, i, j, r => by
    simp only [runSteps]
    rcases hres : resolveCommand t fname with e | cmd
    · simp
    · by_cases h0 : env.exitCode i = 0
      · by_cases hm : i = 0 ∧ 1 < nTotal ∧ env.xtboptExists = false
        · simp only [if_pos h0, if_pos hm]
          match j with
          | 0 => intro hr; cases hr; rfl
          | j' + 1 => simp
        · simp only [if_pos h0, if_neg hm]
          match j with
          | 0 => intro hr; cases hr; rfl
          | j' + 1 =>
            intro hr
            have := runSteps_logPath env dir fname nTotal rest (i + 1) j' r
              (by simpa using hr)
            simpa [Nat.add_assoc, Nat.add_comm, Nat.add_left_comm] using this
      · simp only [if_neg h0]
        match j with
        | 0 => intro hr; cases hr; rfl
        | j' + 1 => simp

/-- C6-amended: every step log is written inside the unit's directory and
is named `xtb_step_<n>.log` with `n` the 1-based step index: the record of
the step at position `j` of a unit's chain has log path
`<unit dir>/xtb_step_<j+1>.log`. -/
theorem c6_amended_log_naming (env : ExecEnv) (dir fname : String) (nTotal : Nat)
    (cmds : List String) (j : Nat) (r : StepRecord)
    (hr : (runSteps env dir fname nTotal cmds 0).1.get? j = some r) :
    r.logPath = dir ++ "/xtb_step_" ++ toString (j + 1) ++ ".log" := by
  simpa using runSteps_logPath env dir fname nTotal cmds 0 j r hr

/-- Witness for C6-amended: the single step of a one-command chain logs to
`out/m1/xtb_step_1.log`. -/
theorem c6_amended_witness :
    StepRecord.logPath ⟨"out/m1/xtb_step_1.log", "xtb m1.xyz --opt"⟩
      = "out/m1" ++ "/xtb_step_" ++ toString (0 + 1) ++ ".log" :=
  c6_amended_log_naming ⟨fun _ => 0, true⟩ "out/m1" "m1.xyz" 1 ["xtb {} --opt"] 0
    ⟨"out/m1/xtb_step_1.log", "xtb m1.xyz --opt"⟩ rfl

/-- C6-counterexample: the log file of step 1 is named `xtb_step_1.log`,
not `step_1.log` as the claim states. -/
theorem c6_counterexample :
    (runSteps ⟨fun _ => 0, true⟩ "out/m1" "m1.xyz" 1 ["xtb {} --opt"] 0).1.map
        StepRecord.logPath = ["out/m1/xtb_step_1.log"] ∧
      "out/m1/xtb_step_1.log" ≠ "out/m1/step_1.log" :=
  ⟨rfl, by decide⟩

/-- If every step from absolute index `i` on exits zero and resolves, and
the `xtbopt.xyz` check cannot fire negatively, the loop runs all remaining
steps and reports no error. -/
theorem runSteps_all_zero (env : ExecEnv) (dir fname : String) (nTotal : Nat) :
    ∀ (cmds : List String) (i : Nat),
      (∀ k, k < cmds.length → env.exitCode (i + k) = 0) →
      (∀ k (hk : k < cmds.length), ∃ c, resolveCommand (cmds.get ⟨k, hk⟩) fname = .ok c) →
      (i = 0 → 1 < nTotal → env.xtboptExists = true) →
      (runSteps env dir fname nTotal cmds i).2 = none ∧
        (runSteps env dir fname nTotal cmds i).1.length = cmds.length
  | [], i, _, _, _ => by simp [runSteps]
  | t :: rest, i, hzero, hres, hmiss => by
    obtain ⟨c, hc⟩ := hres 0 (by simp)
    have h0 : env.exitCode i = 0 := by simpa using hzero 0 (by simp)
    have hm : ¬(i = 0 ∧ 1 < nTotal ∧ env.xtboptExists = false) := by
      rintro ⟨hi, h1, h2⟩
      rw [hmiss hi h1] at h2
      cases h2
    have ih := runSteps_all_zero env dir fname nTotal rest (i + 1)
      (fun k hk => by
        have := hzero (k + 1) (by simpa using Nat.succ_lt_succ hk)
        simpa [Nat.add_assoc, Nat.add_comm, Nat.add_left_comm] using this)
      (fun k hk => hres (k + 1) (by simpa using Nat.succ_lt_succ hk))
      (fun hi => absurd hi (Nat.succ_ne_zero i))
    have hc' : resolveCommand t fname = .ok c := hc
    simp only [runSteps, hc', if_pos h0, if_neg hm]
    refine ⟨ih.1, ?_⟩
    show (runSteps env dir fname nTotal rest (i + 1)).1.length + 1 = rest.length + 1
    rw [ih.2]

/-- If steps `0..j-1` (relative to `i`) exit zero, every resolution up to
`j` succeeds, and step `j` exits non-zero, the loop stops right after step
`j` with a `CalledProcessError`-shaped failure. -/
theorem runSteps_first_nonzero (env : ExecEnv) (dir fname : String) (nTotal : Nat) :
    ∀ (cmds : List String) (i j : Nat) (hj : j < cmds.length),
      (∀ k, k < j → env.exitCode (i + k) = 0) →
      (∀ k (hk : k < cmds.length), ∃ c, resolveCommand (cmds.get ⟨k, hk⟩) fname = .ok c) →
      env.exitCode (i + j) ≠ 0 →
      (i = 0 → 1 < nTotal → 0 < j → env.xtboptExists = true) →
      ∃ c, resolveCommand (cmds.get ⟨j, hj⟩) fname = .ok c ∧
        (runSteps env dir fname nTotal cmds i).2
          = some (.calledProcess c (env.exitCode (i + j))) ∧
        (runSteps env dir fname nTotal cmds i).1.length = j + 1
  | [], _, j, hj, _, _, _, _ => absurd hj (by simp)
  | t :: rest, i, 0, hj, _, hres, hexit, _ => by
    obtain ⟨c, hc⟩ := hres 0 (by simp)
    have hc' : resolveCommand t fname = .ok c := hc
    have h0 : ¬env.exitCode i = 0 := by simpa using hexit
    refine ⟨c, hc, ?_⟩
    simp only [runSteps, hc', if_neg h0]
    simp
  | t :: rest, i, j + 1, hj, hzero, hres, hexit, hmiss => by
    obtain ⟨c0, hc0⟩ := hres 0 (by simp)
    have h0 : env.exitCode i = 0 := by simpa using hzero 0 (Nat.succ_pos j)
    have hm : ¬(i = 0 ∧ 1 < nTotal ∧ env.xtboptExists = false) := by
      rintro ⟨hi, h1, h2⟩
      rw [hmiss hi h1 (Nat.succ_pos j)] at h2
      cases h2
    obtain ⟨c, hc, herr, hlen⟩ := runSteps_first_nonzero env dir fname nTotal rest (i + 1) j
      (by simpa using hj)
      (fun k hk => by
        have := hzero (k + 1) (Nat.succ_lt_succ hk)
        simpa [Nat.add_assoc, Nat.add_comm, Nat.add_left_comm] using this)
      (fun k hk => hres (k + 1) (by simpa using Nat.succ_lt_succ hk))
      (by
        have hij : i + 1 + j = i + (j + 1) := by omega
        rw [hij]; exact hexit)
      (fun hi => absurd hi (Nat.succ_ne_zero i))
    have hc0' : resolveCommand t fname = .ok c0 := hc0
    have hij : i + 1 + j = i + (j + 1) := by omega
    refine ⟨c, by simpa using hc, ?_, ?_⟩
    · simp only [runSteps, hc0', if_pos h0, if_neg hm]
      show (runSteps env dir fname nTotal rest (i + 1)).2 = _
      rw [herr, hij]
    · simp only [runSteps, hc0', if_pos h0, if_neg hm]
      show (runSteps env dir fname nTotal rest (i + 1)).1.length + 1 = j + 1 + 1
      rw [hlen]

/-- C3: in a multi-step chain, when the first step exits zero but
`xtbopt.xyz` is absent from the unit directory, no further step is run and
the unit fails with the missing-output error even though the exit code was
zero. -/
theorem c3_missing_intermediate_aborts (env : ExecEnv) (dir fname t : String)
    (rest : List String) (hrest : rest ≠ []) (c : String)
    (hres : resolveCommand t fname = .ok c)
    (h0 : env.exitCode 0 = 0) (hx : env.xtboptExists = false) :
    (runSteps env dir fname (t :: rest).length (t :: rest) 0).2
        = some (.missingOutput (dir ++ "/xtbopt.xyz") 1) ∧
      (runSteps env dir fname (t :: rest).length (t :: rest) 0).1.length = 1 ∧
      execute_xtb_commands (t :: rest) env ⟨dir, fname⟩
        = "ERROR: " ++ "Processing error for " ++ fname ++ ": Expected output file " ++
            (dir ++ "/xtbopt.xyz") ++ " not found after step " ++ toString 1 := by
  have hr : 0 < rest.length := List.length_pos.mpr hrest
  refine ⟨?_, ?_, ?_⟩ <;>
    simp [runSteps, execute_xtb_commands, hres, h0, hx, hr]

/-- Witness for C3: a two-step chain whose first step exits zero without
producing `xtbopt.xyz` stops after one step with a missing-output failure. -/
theorem c3_witness :
    (runSteps ⟨fun _ => 0, false⟩ "out/m1" "m1.xyz"
        (["xtb {} --opt", "xtb xtbopt.xyz --vipea"]).length
        ["xtb {} --opt", "xtb xtbopt.xyz --vipea"] 0).2
      = some (.missingOutput ("out/m1" ++ "/xtbopt.xyz") 1) ∧
    (runSteps ⟨fun _ => 0, false⟩ "out/m1" "m1.xyz"
        (["xtb {} --opt", "xtb xtbopt.xyz --vipea"]).length
        ["xtb {} --opt", "xtb xtbopt.xyz --vipea"] 0).1.length = 1 ∧
    execute_xtb_commands ["xtb {} --opt", "xtb xtbopt.xyz --vipea"] ⟨fun _ => 0, false⟩
        ⟨"out/m1", "m1.xyz"⟩
      = "ERROR: " ++ "Processing error for " ++ "m1.xyz" ++ ": Expected output file " ++
          ("out/m1" ++ "/xtbopt.xyz") ++ " not found after step " ++ toString 1 :=
  c3_missing_intermediate_aborts ⟨fun _ => 0, false⟩ "out/m1" "m1.xyz" "xtb {} --opt"
    ["xtb xtbopt.xyz --vipea"] (by decide) "xtb m1.xyz --opt" rfl rfl rfl

/-- C4: a non-zero exit at step `j` stops the unit right after step `j`
with a command-failed outcome (steps after the zero-exit steps `0..j-1`
did execute, steps after `j` do not); and when every step exits zero (and
the required intermediate output is present for multi-step chains) all
steps execute and the unit is a Success. -/
theorem c4_exit_status_controls_chain (cmds : List String) (env : ExecEnv)
    (dir fname : String) :
    (∀ j (hj : j < cmds.length),
       (∀ k, k < j → env.exitCode k = 0) →
       (∀ k (hk : k < cmds.length), ∃ c, resolveCommand (cmds.get ⟨k, hk⟩) fname = .ok c) →
       env.exitCode j ≠ 0 →
       (1 < cmds.length → 0 < j → env.xtboptExists = true) →
       ∃ c, resolveCommand (cmds.get ⟨j, hj⟩) fname = .ok c ∧
         (runSteps env dir fname cmds.length cmds 0).2
           = some (.calledProcess c (env.exitCode j)) ∧
         (runSteps env dir fname cmds.length cmds 0).1.length = j + 1 ∧
         execute_xtb_commands cmds env ⟨dir, fname⟩
           = "ERROR: " ++ "XTB command failed for " ++ fname ++ ": Command " ++ c ++
               " returned non-zero exit status " ++ toString (env.exitCode j)) ∧
    ((∀ k, k < cmds.length → env.exitCode k = 0) →
     (∀ k (hk : k < cmds.length), ∃ c, resolveCommand (cmds.get ⟨k, hk⟩) fname = .ok c) →
     (1 < cmds.length → env.xtboptExists = true) →
     (runSteps env dir fname cmds.length cmds 0).2 = none ∧
       (runSteps env dir fname cmds.length cmds 0).1.length = cmds.length ∧
       execute_xtb_commands cmds env ⟨dir, fname⟩ = "SUCCESS: " ++ dir ++ "/" ++ fname) := by
  constructor
  · intro j hj hzero hres hexit hxt
    obtain ⟨c, hc, herr, hlen⟩ := runSteps_first_nonzero env dir fname cmds.length cmds 0 j hj
      (fun k hk => by simpa using hzero k hk) hres (by simpa using hexit)
      (fun _ h1 h0j => hxt h1 h0j)
    have herr' : (runSteps env dir fname cmds.length cmds 0).2
        = some (.calledProcess c (env.exitCode j)) := by simpa using herr
    refine ⟨c, hc, herr', hlen, ?_⟩
    simp [execute_xtb_commands, herr']
  · intro hzero hres hxt
    obtain ⟨herr, hlen⟩ := runSteps_all_zero env dir fname cmds.length cmds 0
      (fun k hk => by simpa using hzero k hk) hres (fun _ h1 => hxt h1)
    refine ⟨herr, hlen, ?_⟩
    simp [execute_xtb_commands, herr]

/-- Witness for C4 at concrete inputs: with the two-step sample chain, a
non-zero exit of step 2 yields the command-failed outcome after two
records, and all-zero exits with `xtbopt.xyz` present yield Success. -/
theorem c4_witness :
    (∃ c, resolveCommand (["xtb {} --opt", "xtb xtbopt.xyz --vipea"].get ⟨1, by decide⟩)
            "m1.xyz" = .ok c ∧
       (runSteps ⟨fun i => if i = 1 then 2 else 0, true⟩ "out/m1" "m1.xyz"
           (["xtb {} --opt", "xtb xtbopt.xyz --vipea"]).length
           ["xtb {} --opt", "xtb xtbopt.xyz --vipea"] 0).2
         = some (.calledProcess c ((fun i => if i = 1 then (2 : Int) else 0) 1)) ∧
       (runSteps ⟨fun i => if i = 1 then 2 else 0, true⟩ "out/m1" "m1.xyz"
           (["xtb {} --opt", "xtb xtbopt.xyz --vipea"]).length
           ["xtb {} --opt", "xtb xtbopt.xyz --vipea"] 0).1.length = 1 + 1 ∧
       execute_xtb_commands ["xtb {} --opt", "xtb xtbopt.xyz --vipea"]
           ⟨fun i => if i = 1 then 2 else 0, true⟩ ⟨"out/m1", "m1.xyz"⟩
         = "ERROR: " ++ "XTB command failed for " ++ "m1.xyz" ++ ": Command " ++ c ++
             " returned non-zero exit status " ++
             toString ((fun i => if i = 1 then (2 : Int) else 0) 1)) ∧
    execute_xtb_commands ["xtb {} --opt", "xtb xtbopt.xyz --vipea"] ⟨fun _ => 0, true⟩
        ⟨"out/m1", "m1.xyz"⟩ = "SUCCESS: " ++ "out/m1" ++ "/" ++ "m1.xyz" :=
  ⟨(c4_exit_status_controls_chain ["xtb {} --opt", "xtb xtbopt.xyz --vipea"]
      ⟨fun i => if i = 1 then 2 else 0, true⟩ "out/m1" "m1.xyz").1 1 (by decide)
      (by decide)
      (fun k hk => by
        match k, hk with
        | 0, _ => exact ⟨"xtb m1.xyz --opt", rfl⟩
        | 1, _ => exact ⟨"xtb xtbopt.xyz --vipea", rfl⟩)
      (by decide) (fun _ _ => rfl),
   ((c4_exit_status_controls_chain ["xtb {} --opt", "xtb xtbopt.xyz --vipea"]
      ⟨fun _ => 0, true⟩ "out/m1" "m1.xyz").2
      (fun k _ => rfl)
      (fun k hk => by
        match k, hk with
        | 0, _ => exact ⟨"xtb m1.xyz --opt", rfl⟩
        | 1, _ => exact ⟨"xtb xtbopt.xyz --vipea", rfl⟩)
      (fun _ => rfl)).2.2⟩

/-- C10: the worker function is total at the unit boundary: for every work
item it returns a string starting with `"SUCCESS: "` or `"ERROR: "` (the
embedding is a total function, mirroring the `try`/`except` that converts
every exception into an `ERROR:` string). -/
theorem c10_worker_always_classifies (cmds : List String) (env : ExecEnv)
    (item : WorkItem) :
    "SUCCESS: ".data <+: (execute_xtb_commands cmds env item).data ∨
      "ERROR: ".data <+: (execute_xtb_commands cmds env item).data := by
  unfold execute_xtb_commands
  rcases (runSteps env item.moleculeDir item.xyzFilename cmds.length cmds 0).2 with
    _ | e
  · exact Or.inl ⟨(item.moleculeDir ++ "/" ++ item.xyzFilename).data, rfl⟩
  · rcases e with ⟨cmd, code⟩ | ⟨p, step⟩ | _
    · exact Or.inr ⟨("XTB command failed for " ++ item.xyzFilename ++ ": Command " ++
        cmd ++ " returned non-zero exit status " ++ toString code).data, rfl⟩
    · exact Or.inr ⟨("Processing error for " ++ item.xyzFilename ++
        ": Expected output file " ++ p ++ " not found after step " ++
        toString step).data, rfl⟩
    · exact Or.inr ⟨("Processing error for " ++ item.xyzFilename ++
        ": Replacement index 1 out of range").data, rfl⟩

/-! ## Lemmas about the batch driver -/

/-- Characterization of a successful staging of one unit. -/
theorem prepare_ok_iff (fs : FS) (x : XyzFile) (workDir : String) (fs1 : FS) (d : String) :
    prepare_molecule_directory fs x workDir = .ok (fs1, d) ↔
      ¬(workDir ++ "/" ++ x.stem ∉ fs.dirs ∧ workDir ++ "/" ++ x.stem ∈ fs.badPaths) ∧
        workDir ++ "/" ++ x.stem ++ "/" ++ x.name ∉ fs.badPaths ∧
        fs1 = { fs with
                dirs := insertDir fs.dirs (workDir ++ "/" ++ x.stem),
                files := setFile fs.files (workDir ++ "/" ++ x.stem ++ "/" ++ x.name)
                  x.content } ∧
        d = workDir ++ "/" ++ x.stem := by
  unfold prepare_molecule_directory
  dsimp only
  split_ifs with h1 h2
  · simp [h1]
  · simp [h2]
  · simp only [Except.ok.injEq, Prod.mk.injEq]
    constructor
    · rintro ⟨hfs, hd⟩
      exact ⟨h1, h2, hfs.symm, hd.symm⟩
    · rintro ⟨-, -, hfs, hd⟩
      exact ⟨hfs.symm, hd.symm⟩

/-- When the staging loop completes, the work items are exactly
`(output_dir/<stem>, <name>)` for each input, in input order. -/
theorem stageAll_ok_items (dir : String) :
    ∀ (files : List XyzFile) (fs fs2 : FS) (items : List WorkItem),
      stageAll dir fs files = .ok (fs2, items) →
      items = files.map (fun x => ⟨dir ++ "/" ++ x.stem, x.name⟩)
  | [], fs, fs2, items => by
    intro h
    simp only [stageAll, Except.ok.injEq, Prod.mk.injEq] at h
    simp [← h.2]
  | x :: rest, fs, fs2, items => by
    intro h
    rw [stageAll] at h
    split at h
    · cases h
    · rename_i fs1 d hp
      split at h
      · cases h
      · rename_i fs3 items' hs
        obtain ⟨-, hitems⟩ := Prod.mk.injEq .. ▸ Except.ok.inj h
        have hd : d = dir ++ "/" ++ x.stem :=
          ((prepare_ok_iff fs x dir fs1 d).mp hp).2.2.2
        rw [← hitems, hd, stageAll_ok_items dir rest fs1 fs3 items' hs]
        simp

theorem runAllUnits_length (cmds : List String) (envOf : Nat → ExecEnv) :
    ∀ (items : List WorkItem) (i : Nat),
      (runAllUnits cmds envOf items i).length = items.length
  | [], _ => rfl
  | _ :: rest, i => by
    simp [runAllUnits, runAllUnits_length cmds envOf rest (i + 1)]

/-- The outcome at position `j` is the worker applied to the item at
position `j`, with the oracle of submission position `i + j`. -/
theorem runAllUnits_get? (cmds : List String) (envOf : Nat → ExecEnv) :
    ∀ (items : List WorkItem) (i j : Nat),
      (runAllUnits cmds envOf items i).get? j
        = (items.get? j).map (fun it => execute_xtb_commands cmds (envOf (i + j)) it)
  | [], i, j => by simp [runAllUnits]
  | it :: rest, i, 0 => by simp [runAllUnits]
  | it :: rest, i, j + 1 => by
    have := runAllUnits_get? cmds envOf rest (i + 1) j
    simpa [runAllUnits, Nat.add_assoc, Nat.add_comm, Nat.add_left_comm] using this

/-- C1: whenever `calculate_batch` returns a batch result, the counts
satisfy `success + errors = total = number of inputs`, and the results
list has exactly one outcome per input file, in input order: the `j`-th
outcome is the worker applied to the `j`-th input's work item. -/
theorem c1_batch_counts_and_order (cmds : List String) (envOf : Nat → ExecEnv)
    (fs : FS) (files : List XyzFile) (dir : String) (fs' : FS) (r : BatchResult)
    (h : calculate_batch cmds envOf fs files dir = .ok (fs', .result r)) :
    r.total = files.length ∧
      r.success + r.errors = r.total ∧
      r.results.length = files.length ∧
      ∀ j, r.results.get? j = (files.get? j).map (fun x =>
        execute_xtb_commands cmds (envOf j) ⟨dir ++ "/" ++ x.stem, x.name⟩) := by
  rw [calculate_batch] at h
  by_cases hempty : files.isEmpty
  · rw [if_pos hempty] at h
    cases h
  · rw [if_neg hempty] at h
    split at h
    · cases h
    · rename_i fs1 items hst
      obtain ⟨-, hr⟩ := Prod.mk.injEq .. ▸ Except.ok.inj h
      injection hr with hr
      subst hr
      have hitems := stageAll_ok_items dir files fs fs1 items hst
      have hlen : (runAllUnits cmds envOf items 0).length = files.length := by
        rw [runAllUnits_length, hitems, List.length_map]
      have hsle : ((runAllUnits cmds envOf items 0).filter
          (fun s => startswith s "SUCCESS")).length
            ≤ (runAllUnits cmds envOf items 0).length :=
        List.length_filter_le _ _
      refine ⟨rfl, ?_, hlen, ?_⟩
      · show ((runAllUnits cmds envOf items 0).filter
            (fun s => startswith s "SUCCESS")).length +
            ((runAllUnits cmds envOf items 0).length -
              ((runAllUnits cmds envOf items 0).filter
                (fun s => startswith s "SUCCESS")).length) = files.length
        omega
      · intro j
        show (runAllUnits cmds envOf items 0).get? j = _
        rw [runAllUnits_get?, hitems, List.get?_map]
        cases files.get? j <;> simp

/-- Witness for C1: a concrete two-file batch returns counts 2/2/0 and one
`SUCCESS` outcome per input, in order. -/
theorem c1_witness :
    (BatchResult.mk 2 2 0 ["SUCCESS: out/m1/m1.xyz", "SUCCESS: out/m2/m2.xyz"]).total = 2 ∧
      (BatchResult.mk 2 2 0 ["SUCCESS: out/m1/m1.xyz", "SUCCESS: out/m2/m2.xyz"]).success +
          (BatchResult.mk 2 2 0 ["SUCCESS: out/m1/m1.xyz", "SUCCESS: out/m2/m2.xyz"]).errors
        = (BatchResult.mk 2 2 0 ["SUCCESS: out/m1/m1.xyz", "SUCCESS: out/m2/m2.xyz"]).total := by
  have h := c1_batch_counts_and_order ["xtb {} --opt"] (fun _ => ⟨fun _ => 0, true⟩)
    ⟨[], [], []⟩ [⟨"in", "m1", ".xyz", "a"⟩, ⟨"in", "m2", ".xyz", "b"⟩] "out"
    ⟨["out/m1", "out/m2"], [("out/m1/m1.xyz", "a"), ("out/m2/m2.xyz", "b")], []⟩
    ⟨2, 2, 0, ["SUCCESS: out/m1/m1.xyz", "SUCCESS: out/m2/m2.xyz"]⟩ (by rfl)
  exact ⟨h.1, h.2.1⟩

/-- C2-counterexample: with unit `m1`'s directory uncreatable, a two-unit
batch does not record a per-unit failure and continue — `calculate_batch`
propagates the staging exception and returns no Batch Result at all, so
the second unit is never staged or executed. -/
theorem c2_counterexample :
    calculate_batch ["xtb {} --opt"] (fun _ => ⟨fun _ => 0, true⟩) ⟨[], [], ["out/m1"]⟩
        [⟨"in", "m1", ".xyz", "a"⟩, ⟨"in", "m2", ".xyz", "b"⟩] "out"
      = .error "StagingError: cannot create directory out/m1" := rfl

/-- The staging loop propagates the first failure: after a prefix of units
stages successfully, a staging exception on the next unit escapes the
whole loop, whatever units would have followed. -/
theorem stageAll_append_error (dir : String) (x : XyzFile) (e : String) :
    ∀ (done : List XyzFile) (fs fs1 : FS) (items : List WorkItem),
      stageAll dir fs done = .ok (fs1, items) →
      prepare_molecule_directory fs1 x dir = .error e →
      ∀ rest : List XyzFile, stageAll dir fs (done ++ x :: rest) = .error e
  | [], fs, fs1, items => by
    intro hdone hfail rest
    obtain ⟨hfs, -⟩ := Prod.mk.injEq .. ▸ Except.ok.inj hdone
    rw [List.nil_append, stageAll, hfs, hfail]
  | y :: done', fs, fs1, items => by
    intro hdone hfail rest
    rw [stageAll] at hdone
    split at hdone
    · cases hdone
    · rename_i fsy dy hy
      split at hdone
      · cases hdone
      · rename_i fs3 items' hs
        obtain ⟨hfs3, -⟩ := Prod.mk.injEq .. ▸ Except.ok.inj hdone
        rw [List.cons_append, stageAll, hy]
        show (match stageAll dir fsy (done' ++ x :: rest) with
              | Except.error e => Except.error e
              | Except.ok (fs2, items2) =>
                  Except.ok (fs2,
                    ({ moleculeDir := dy, xyzFilename := y.name } : WorkItem) :: items2))
            = Except.error e
        rw [stageAll_append_error dir x e done' fsy fs1 items' (hfs3 ▸ hs) hfail rest]

/-- C2-amended: a staging failure is not contained to its unit: when the
staging of the unit at any position raises (its predecessors having staged
successfully), `calculate_batch` re-raises that very exception; no Batch
Result is produced, no per-unit failure outcome is recorded, and the
remaining units are neither staged nor executed. -/
theorem c2_amended_staging_failure_aborts_batch (cmds : List String)
    (envOf : Nat → ExecEnv) (fs : FS) (dir : String) (done : List XyzFile)
    (x : XyzFile) (rest : List XyzFile) (fs1 : FS) (items : List WorkItem) (e : String)
    (hdone : stageAll dir fs done = .ok (fs1, items))
    (hfail : prepare_molecule_directory fs1 x dir = .error e) :
    calculate_batch cmds envOf fs (done ++ x :: rest) dir = .error e := by
  rw [calculate_batch, if_neg (by simp),
    stageAll_append_error dir x e done fs fs1 items hdone hfail rest]

/-- Witness for C2-amended at a concrete batch whose second of three units
fails to stage: the first unit staged fine, yet the whole batch errors. -/
theorem c2_amended_witness :
    calculate_batch ["xtb {} --opt"] (fun _ => ⟨fun _ => 0, true⟩) ⟨[], [], ["out/m2"]⟩
        ([⟨"in", "m1", ".xyz", "a"⟩] ++ ⟨"in", "m2", ".xyz", "b"⟩ ::
          [⟨"in", "m3", ".xyz", "c"⟩]) "out"
      = .error ("StagingError: cannot create directory " ++ ("out" ++ "/" ++ "m2")) :=
  c2_amended_staging_failure_aborts_batch ["xtb {} --opt"] (fun _ => ⟨fun _ => 0, true⟩)
    ⟨[], [], ["out/m2"]⟩ "out" [⟨"in", "m1", ".xyz", "a"⟩] ⟨"in", "m2", ".xyz", "b"⟩
    [⟨"in", "m3", ".xyz", "c"⟩]
    ⟨["out/m1"], [("out/m1/m1.xyz", "a")], ["out/m2"]⟩ [⟨"out/m1", "m1.xyz"⟩]
    ("StagingError: cannot create directory " ++ ("out" ++ "/" ++ "m2"))
    (by rfl) (by rfl)

/-- C5-counterexample: an empty input list is not fatal: `calculate_batch`
on `[]` returns the empty dictionary as a normal value instead of failing
hard. -/
theorem c5_counterexample :
    calculate_batch ["xtb {} --opt"] (fun _ => ⟨fun _ => 0, true⟩) ⟨[], [], []⟩ [] "out"
      = .ok (⟨[], [], []⟩, .emptyDict) := rfl

/-- The validation loop stops at the first non-string entry and reports
its 1-based index: a prefix of strings followed by a non-string entry
fails with index `counter + prefix length`. -/
theorem validateCommandStrings_first_bad :
    ∀ (strs : List String) (bad : Yaml), (∀ s, bad ≠ Yaml.str s) →
      ∀ (tail : List Yaml) (i : Nat),
        validateCommandStrings (strs.map Yaml.str ++ bad :: tail) i
          = .error ("XTB command " ++ toString (i + strs.length) ++ " must be a string")
  | [], bad, hbad, tail, i => by
    cases bad with
    | str s => exact absurd rfl (hbad s)
    | list xs => rfl
    | other => rfl
  | s :: strs', bad, hbad, tail, i => by
    have ih := validateCommandStrings_first_bad strs' bad hbad tail (i + 1)
    have hn : i + 1 + strs'.length = i + (strs'.length + 1) := by omega
    rw [List.map_cons, List.cons_append]
    show validateCommandStrings (strs'.map Yaml.str ++ bad :: tail) (i + 1) = _
    rw [ih, hn]
    rfl

/-- C5-amended: an empty or malformed command list is fatal before
scheduling begins — `get_xtb_config` raises `ConfigurationError` for a
missing `command` key, for a non-list `command` value (string or any other
non-list), for an empty list, and for a list whose first non-string entry
sits at 1-based position n (`"XTB command n must be a string"`), and
`XTBCalculator.__init__` raises `ValueError` on an empty command list —
but a total absence of input units is not fatal: `calculate_batch` on an
empty file list returns the empty dict normally, for every configuration
and filesystem. -/
theorem c5_amended_config_fatal_but_empty_input_not :
    (∀ cfg : List (String × Yaml), lookupY cfg "command" = none →
       get_xtb_config_commands cfg = .error "XTB commands not specified in configuration") ∧
      (∀ rest, get_xtb_config_commands (("command", Yaml.list []) :: rest)
        = .error "XTB commands must be a non-empty list") ∧
      (∀ s rest, get_xtb_config_commands (("command", Yaml.str s) :: rest)
        = .error "XTB commands must be a non-empty list") ∧
      (∀ rest, get_xtb_config_commands (("command", Yaml.other) :: rest)
        = .error "XTB commands must be a non-empty list") ∧
      (∀ (strs : List String) (bad : Yaml), (∀ s, bad ≠ Yaml.str s) →
        ∀ (tail : List Yaml) (rest : List (String × Yaml)),
          get_xtb_config_commands
              (("command", Yaml.list (strs.map Yaml.str ++ bad :: tail)) :: rest)
            = .error ("XTB command " ++ toString (strs.length + 1) ++ " must be a string")) ∧
      xtb_calculator_init [] = .error "No XTB commands specified in configuration" ∧
      (∀ (cmds : List String) (envOf : Nat → ExecEnv) (fs : FS) (dir : String),
        calculate_batch cmds envOf fs [] dir = .ok (fs, .emptyDict)) := by
  refine ⟨fun cfg hc => ?_, fun rest => rfl, fun s rest => rfl, fun rest => rfl,
    fun strs bad hbad tail rest => ?_, rfl, fun cmds envOf fs dir => rfl⟩
  · rw [get_xtb_config_commands, hc]
  · have hv := validateCommandStrings_first_bad strs bad hbad tail 1
    have hne : (strs.map Yaml.str ++ bad :: tail).isEmpty = false := by
      cases strs <;> rfl
    have hn : (1 : Nat) + strs.length = strs.length + 1 := Nat.add_comm 1 _
    rw [get_xtb_config_commands]
    show (if (strs.map Yaml.str ++ bad :: tail).isEmpty = true then _ else _) = _
    rw [hne]
    show (match validateCommandStrings (strs.map Yaml.str ++ bad :: tail) 1 with
      | .ok _ => Except.ok (strs.map Yaml.str ++ bad :: tail)
      | .error e => Except.error e) = _
    rw [hv, hn]

/-- Witness for C5-amended: a config without a `command` key is rejected,
and a command list whose second entry is not a string is rejected with the
index-2 message. -/
theorem c5_amended_witness :
    get_xtb_config_commands [("solvent", Yaml.str "benzene")]
        = .error "XTB commands not specified in configuration" ∧
      get_xtb_config_commands
          [("command", Yaml.list (["xtb {} --opt"].map Yaml.str ++ Yaml.other :: []))]
        = .error ("XTB command " ++ toString (["xtb {} --opt"].length + 1) ++
            " must be a string") :=
  ⟨c5_amended_config_fatal_but_empty_input_not.1 [("solvent", Yaml.str "benzene")] rfl,
   c5_amended_config_fatal_but_empty_input_not.2.2.2.2.1 ["xtb {} --opt"] Yaml.other
     (fun s h => Yaml.noConfusion h) [] []⟩

/-! ## Lemmas about the filesystem model and staging idempotence -/

theorem setFile_idem : ∀ (l : List (String × String)) (k v : String),
    setFile (setFile l k v) k v = setFile l k v
  | [], k, v => by simp [setFile]
  | (k', v') :: rest, k, v => by
    by_cases hk : k' = k
    · simp [setFile, hk]
    · simp [setFile, hk, setFile_idem rest k v]

theorem mem_insertDir (dirs : List String) (d : String) : d ∈ insertDir dirs d := by
  unfold insertDir
  split_ifs with h
  · exact h
  · simp

theorem insertDir_of_mem (dirs : List String) (d : String) (h : d ∈ dirs) :
    insertDir dirs d = dirs := if_pos h

theorem lookupFile_setFile_ne : ∀ (l : List (String × String)) (k v p : String),
    p ≠ k → lookupFile (setFile l k v) p = lookupFile l p
  | [], k, v, p, hp => by simp [setFile, lookupFile, Ne.symm hp]
  | (k', v') :: rest, k, v, p, hp => by
    by_cases hk : k' = k
    · subst hk
      simp [setFile, lookupFile, Ne.symm hp]
    · simp only [setFile, if_neg hk, lookupFile]
      by_cases hpk : k' = p
      · simp [hpk]
      · simp [hpk, lookupFile_setFile_ne rest k v p hp]

theorem countKey_setFile : ∀ (l : List (String × String)) (k v : String),
    countKey k l ≤ 1 → countKey k (setFile l k v) = 1
  | [], k, v, _ => by simp [setFile, countKey]
  | (k', v') :: rest, k, v, h => by
    by_cases hk : k' = k
    · subst hk
      have h' : rest.filter (fun p => p.1 = k') = [] := by
        simp [countKey, List.filter_cons] at h
        refine List.filter_eq_nil.mpr ?_
        rintro ⟨a, b⟩ hab
        simpa using h a b hab
      simp [countKey, setFile, List.filter_cons, h']
    · have h' : countKey k rest ≤ 1 := by
        simpa [countKey, List.filter_cons, hk] using h
      simpa [countKey, setFile, List.filter_cons, hk] using
        countKey_setFile rest k v h'

/-- C8: staging is idempotent and reuses pre-existing directories: a second
run of `_prepare_molecule_directory` for the same input returns the same
filesystem unchanged; a pre-existing unit directory is reused (directory
list unchanged); files other than the staged copy are untouched; and for a
well-formed filesystem the staged input exists in exactly one copy. -/
theorem c8_staging_idempotent (fs : FS) (x : XyzFile) (workDir : String) (fs1 : FS)
    (d : String) (h : prepare_molecule_directory fs x workDir = .ok (fs1, d)) :
    prepare_molecule_directory fs1 x workDir = .ok (fs1, d) ∧
      (workDir ++ "/" ++ x.stem ∈ fs.dirs → fs1.dirs = fs.dirs) ∧
      (∀ p, p ≠ workDir ++ "/" ++ x.stem ++ "/" ++ x.name →
        lookupFile fs1.files p = lookupFile fs.files p) ∧
      ((∀ k, countKey k fs.files ≤ 1) →
        countKey (workDir ++ "/" ++ x.stem ++ "/" ++ x.name) fs1.files = 1) := by
  obtain ⟨hdir, hbad, hfs1, hd⟩ := (prepare_ok_iff fs x workDir fs1 d).mp h
  refine ⟨?_, ?_, ?_, ?_⟩
  · rw [prepare_ok_iff]
    refine ⟨?_, ?_, ?_, hd⟩
    · rw [hfs1]
      intro hcon
      exact hcon.1 (mem_insertDir fs.dirs (workDir ++ "/" ++ x.stem))
    · rw [hfs1]
      exact hbad
    · rw [hfs1]
      simp [insertDir_of_mem _ _ (mem_insertDir fs.dirs (workDir ++ "/" ++ x.stem)),
        setFile_idem]
  · intro hmem
    rw [hfs1]
    exact insertDir_of_mem fs.dirs _ hmem
  · intro p hp
    rw [hfs1]
    exact lookupFile_setFile_ne fs.files _ x.content p hp
  · intro hwf
    rw [hfs1]
    exact countKey_setFile fs.files _ x.content (hwf _)

/-- Witness for C8 at a concrete filesystem whose unit directory already
exists and already holds a staged copy. -/
theorem c8_witness :
    prepare_molecule_directory ⟨["out/m1"], [("out/m1/m1.xyz", "a")], []⟩
        ⟨"in", "m1", ".xyz", "a"⟩ "out"
      = .ok (⟨["out/m1"], [("out/m1/m1.xyz", "a")], []⟩, "out" ++ "/" ++ "m1") ∧
      FS.dirs ⟨["out/m1"], [("out/m1/m1.xyz", "a")], []⟩ = ["out/m1"] ∧
      countKey ("out" ++ "/" ++ "m1" ++ "/" ++ XyzFile.name ⟨"in", "m1", ".xyz", "a"⟩)
        (FS.files ⟨["out/m1"], [("out/m1/m1.xyz", "a")], []⟩) = 1 := by
  have h := c8_staging_idempotent ⟨["out/m1"], [("out/m1/m1.xyz", "a")], []⟩
    ⟨"in", "m1", ".xyz", "a"⟩ "out" ⟨["out/m1"], [("out/m1/m1.xyz", "a")], []⟩
    ("out" ++ "/" ++ "m1") (by rfl)
  exact ⟨h.1, h.2.1 (by decide), h.2.2.2 (fun k => List.length_filter_le _ _)⟩

/-- C9: the export pass writes exactly one merged file per unit whose
`xtbopt.xyz` exists — first two lines of the staged input followed by the
optimized coordinates from line 3 on — and produces nothing for units
without it (it only reads unit directories, never re-running them). -/
theorem c9_export_pass (units : List UnitDir) :
    out_xyz_export units
      = (units.filter hasXtbopt).map (fun u =>
          (u.stagedName,
           ((lookupLines u.files u.stagedName).getD []).take 2 ++
             ((lookupLines u.files "xtbopt.xyz").getD []).drop 2)) := by
  induction units with
  | nil => rfl
  | cons u rest ih =>
    rcases hx : lookupLines u.files "xtbopt.xyz" with _ | coords <;>
      simp [out_xyz_export, out_xyz_convert_unit, hasXtbopt, hx, ih,
        List.filter_cons] <;>
      simpa [out_xyz_export] using ih

end AutoChem
